import Mathlib

/-!
Shallow embedding of the CarAI MQTT cluster core (src/matrix_publisher.py,
class SimplifiedVehicleAI). Pure state-transition parts of the Python code
are translated to executable Lean functions:

- `CarState` / `update_car_state` embed the `car_state` dict and the
  `update_car_state` method (lines 187-222).
- `histAppend` embeds `deque(maxlen=50).append` (line 34 / 171).
- `DriverPreferences` / `learn_preferences` embed the preferences dict and
  the `learn_preferences` method (lines 269-308).  Python numeric truthiness
  (`and act['value']`) is embedded by `truthy`; Python floor division `//` is
  embedded by `Int.fdiv`.
- `eligibleRecs` / `generate_recommendations` embed `generate_recommendations`
  (lines 310-433).  Message phrasing is drawn at random from template pools in
  the source, so recommendations are modelled as (action, value) pairs and the
  wall-clock hour is an explicit parameter.
- `send_break_reminder` / `runReminders` embed the guarded one-shot break
  reminder (lines 435-465); the published payload is modelled as the list of
  recommendation records sent.
- `handle_vehicle_action` embeds the event handler (lines 162-185) acting on
  the pure session fields (timer scheduling and MQTT I/O are not modelled).

Timestamps are irrelevant to every property below and are omitted from the
event record; values are modelled as integers (`Option Int`, `none` for a
missing/null JSON value).
-/

/-- Embeds the Python truthiness test `if value:` on an optional numeric
value: false for null and for 0. -/
def truthy : Option Int → Bool
  | none => false
  | some n => decide (n ≠ 0)

/-- Embeds one recorded element of `action_history`
(`{'action': ..., 'timestamp': ..., 'value': ...}`, timestamp omitted). -/
structure ActionEvent where
  action : String
  value : Option Int
deriving Repr, DecidableEq

/-- Embeds the `car_state` dict of `SimplifiedVehicleAI`. -/
structure CarState where
  climate_on : Bool
  temperature : Int
  infotainment_on : Bool
  volume : Int
  lights_on : Bool
  brightness : Int
  seats_heated : Bool
  seat_position : Int
deriving Repr, DecidableEq

/-- Embeds the initial `car_state` dict (lines 40-49). -/
def initialCarState : CarState :=
  { climate_on := false
    temperature := 22
    infotainment_on := false
    volume := 50
    lights_on := false
    brightness := 80
    seats_heated := false
    seat_position := 5 }

/-- Embeds the `update_car_state` method (lines 187-222): an if/elif chain on
the action name.  The source conditions `action == '...' and value` become
conjunctions with `truthy value`; as in the source, a direct set stores the
raw value with no clamp, while increment/decrement actions clamp. -/
def update_car_state (s : CarState) (action : String) (value : Option Int) :
    CarState :=
  if action = "climate_turn_on" then { s with climate_on := true }
  else if action = "climate_turn_off" then { s with climate_on := false }
  else if action = "climate_set_temperature" ∧ truthy value then
    { s with temperature := value.getD 0 }
  else if action = "climate_increase" then
    { s with temperature := min (s.temperature + 1) 30 }
  else if action = "climate_decrease" then
    { s with temperature := max (s.temperature - 1) 16 }
  else if action = "infotainment_play" then { s with infotainment_on := true }
  else if action = "infotainment_stop" then { s with infotainment_on := false }
  else if action = "infotainment_set_volume" ∧ truthy value then
    { s with volume := value.getD 0 }
  else if action = "infotainment_volume_up" then
    { s with volume := min (s.volume + 10) 100 }
  else if action = "infotainment_volume_down" then
    { s with volume := max (s.volume - 10) 0 }
  else if action = "lights_turn_on" then { s with lights_on := true }
  else if action = "lights_turn_off" then { s with lights_on := false }
  else if action = "lights_dim" then
    { s with brightness := max (s.brightness - 20) 0 }
  else if action = "lights_brighten" then
    { s with brightness := min (s.brightness + 20) 100 }
  else if action = "seats_heat_on" then { s with seats_heated := true }
  else if action = "seats_heat_off" then { s with seats_heated := false }
  else if action = "seats_adjust" ∧ truthy value then
    { s with seat_position := value.getD 0 }
  else s

/-- The 17 action names recognised by `update_car_state`. -/
def knownActions : List String :=
  ["climate_turn_on", "climate_turn_off", "climate_set_temperature",
   "climate_increase", "climate_decrease",
   "infotainment_play", "infotainment_stop", "infotainment_set_volume",
   "infotainment_volume_up", "infotainment_volume_down",
   "lights_turn_on", "lights_turn_off", "lights_dim", "lights_brighten",
   "seats_heat_on", "seats_heat_off", "seats_adjust"]

/-- Folds a list of (action, value) pairs through `update_car_state`,
describing the car states reachable by any sequence of updates. -/
def applyActions (s : CarState) (es : List (String × Option Int)) : CarState :=
  es.foldl (fun t e => update_car_state t e.1 e.2) s

/-- Embeds `deque(maxlen=50)` append (line 34 / line 171): the new event goes
on the right and, past capacity 50, elements fall off the left. -/
def histAppend (h : List ActionEvent) (e : ActionEvent) : List ActionEvent :=
  let h2 := h ++ [e]
  if h2.length ≤ 50 then h2 else h2.drop (h2.length - 50)

/-- Embeds the `driver_preferences` dict (the unused `action_sequences` entry,
never read or written after initialisation, is omitted). -/
structure DriverPreferences where
  preferred_temperature : Int
  preferred_volume : Int
  preferred_seat_position : Int
  preferred_brightness : Int
  likes_music : Bool
  likes_warm_seats : Bool
  common_actions : List String
deriving Repr, DecidableEq

/-- Embeds the initial `driver_preferences` dict (lines 52-61). -/
def initialDriverPreferences : DriverPreferences :=
  { preferred_temperature := 22
    preferred_volume := 50
    preferred_seat_position := 5
    preferred_brightness := 80
    likes_music := false
    likes_warm_seats := false
    common_actions := [] }

/-- Embeds the filter `act['action'] == name and act['value']` used by
`learn_preferences` for the three set-value action kinds. -/
def isSetAction (name : String) (a : ActionEvent) : Bool :=
  a.action == name && truthy a.value

/-- Embeds Python `sum(xs) // len(xs)`: floor division on integers. -/
def meanFloor (xs : List Int) : Int :=
  Int.fdiv xs.sum (xs.length : Int)

/-- Embeds lines 277-281 of `learn_preferences`: when set-temperature
entries with truthy values exist, set `preferred_temperature` to the floor
mean of their values. -/
def learnTemperature (history : List ActionEvent) (p : DriverPreferences) :
    DriverPreferences :=
  let temp_actions := history.filter (isSetAction "climate_set_temperature")
  if temp_actions ≠ [] then
    { p with preferred_temperature :=
        meanFloor (temp_actions.filterMap (fun a => a.value)) }
  else p

/-- Embeds lines 284-288 of `learn_preferences`: volume preference. -/
def learnVolume (history : List ActionEvent) (p : DriverPreferences) :
    DriverPreferences :=
  let vol_actions := history.filter (isSetAction "infotainment_set_volume")
  if vol_actions ≠ [] then
    { p with preferred_volume :=
        meanFloor (vol_actions.filterMap (fun a => a.value)) }
  else p

/-- Embeds lines 291-295 of `learn_preferences`: seat position preference. -/
def learnSeatPosition (history : List ActionEvent) (p : DriverPreferences) :
    DriverPreferences :=
  let seat_actions := history.filter (isSetAction "seats_adjust")
  if seat_actions ≠ [] then
    { p with preferred_seat_position :=
        meanFloor (seat_actions.filterMap (fun a => a.value)) }
  else p

/-- Embeds lines 297-302 of `learn_preferences`: the behaviour-pattern flags,
set true when the triggering action appears in the window, never set false. -/
def learnFlags (actions : List String) (p : DriverPreferences) :
    DriverPreferences :=
  let p4 := if "infotainment_play" ∈ actions then
      { p with likes_music := true }
    else p
  if "seats_heat_on" ∈ actions then { p4 with likes_warm_seats := true }
  else p4

/-- Embeds lines 304-308 of `learn_preferences`: `common_actions` is fully
recomputed as the names occurring at least twice, in first-occurrence order
(as `Counter` preserves insertion order). -/
def learnCommon (actions : List String) (p : DriverPreferences) :
    DriverPreferences :=
  { p with common_actions :=
      actions.eraseDups.filter (fun a => 2 ≤ actions.count a) }

/-- Embeds the `learn_preferences` method (lines 269-308): early return below
3 history entries, then the five sequential mutation blocks above applied in
source order to the preferences record. -/
def learn_preferences (history : List ActionEvent) (p : DriverPreferences) :
    DriverPreferences :=
  if history.length < 3 then p
  else
    let actions := history.map (fun a => a.action)
    learnCommon actions (learnFlags actions
      (learnSeatPosition history
        (learnVolume history (learnTemperature history p))))

/-- Embeds one emitted recommendation record; the `message` field of the
source is randomly phrased text and is not modelled. -/
structure Recommendation where
  action : String
  value : Option Int
deriving Repr, DecidableEq

/-- Embeds Python negative slicing `l[-n:]`: the last `n` elements. -/
def lastN (n : Nat) (l : List String) : List String :=
  l.drop (l.length - n)

/-- The candidate list built by `generate_recommendations` (lines 312-430):
seven eligibility rules appending in fixed declaration order, each suppressed
when its action name is in the last 3 of the last 5 recorded action names.
The lighting rule is gated on the wall-clock hour. -/
def eligibleRecs (s : CarState) (p : DriverPreferences)
    (hist : List ActionEvent) (hour : Nat) : List Recommendation :=
  let recent_actions := lastN 5 (hist.map (fun a => a.action))
  let recent_action_set := lastN 3 recent_actions
  (if ¬s.climate_on ∧ "climate_turn_on" ∉ recent_action_set then
    [{ action := "climate_turn_on", value := none }] else []) ++
  (if s.climate_on ∧ p.preferred_temperature ≠ s.temperature ∧
      "climate_set_temperature" ∉ recent_action_set then
    [{ action := "climate_set_temperature",
       value := some p.preferred_temperature }] else []) ++
  (if ¬s.infotainment_on ∧ p.likes_music ∧
      "infotainment_play" ∉ recent_action_set then
    [{ action := "infotainment_play", value := none }] else []) ++
  (if s.infotainment_on ∧ p.preferred_volume ≠ s.volume ∧
      "infotainment_set_volume" ∉ recent_action_set then
    [{ action := "infotainment_set_volume",
       value := some p.preferred_volume }] else []) ++
  (if 18 ≤ hour ∨ hour ≤ 6 then
    (if ¬s.lights_on ∧ "lights_turn_on" ∉ recent_action_set then
      [{ action := "lights_turn_on", value := none }] else [])
   else
    (if s.lights_on ∧ "lights_turn_off" ∉ recent_action_set then
      [{ action := "lights_turn_off", value := none }] else [])) ++
  (if ¬s.seats_heated ∧ p.likes_warm_seats ∧
      "seats_heat_on" ∉ recent_action_set then
    [{ action := "seats_heat_on", value := none }] else []) ++
  (if p.preferred_seat_position ≠ s.seat_position ∧
      "seats_adjust" ∉ recent_action_set then
    [{ action := "seats_adjust", value := some p.preferred_seat_position }]
   else [])

/-- Embeds `generate_recommendations` (line 433):
`return recommendations[:2] if recommendations else None`. -/
def generate_recommendations (s : CarState) (p : DriverPreferences)
    (hist : List ActionEvent) (hour : Nat) : Option (List Recommendation) :=
  let recommendations := eligibleRecs s p hist hour
  if recommendations = [] then none else some (recommendations.take 2)

/-- Embeds `send_break_reminder` (lines 435-465) as a transition on the
`break_reminder_sent` flag returning the recommendation records published by
that invocation. -/
def send_break_reminder (sent : Bool) : Bool × List Recommendation :=
  if sent then (sent, [])
  else (true, [{ action := "take_break", value := none }])

/-- Runs `send_break_reminder` `n` times in sequence (modelling repeated
expiry signals of the reminder timer), collecting everything published. -/
def runReminders (sent : Bool) : Nat → Bool × List Recommendation
  | 0 => (sent, [])
  | n + 1 =>
      let r := send_break_reminder sent
      let rest := runReminders r.1 n
      (rest.1, r.2 ++ rest.2)

/-- The pure session fields touched by the event handler. -/
structure AIState where
  car_state : CarState
  action_history : List ActionEvent
  driver_preferences : DriverPreferences
deriving Repr, DecidableEq

/-- Embeds `handle_vehicle_action` (lines 162-185) on the pure session
fields: append the event to history, update the car state, recompute
preferences (timer bookkeeping and printing are not modelled). -/
def handle_vehicle_action (st : AIState) (e : ActionEvent) : AIState :=
  let hist := histAppend st.action_history e
  let car := update_car_state st.car_state e.action e.value
  let prefs := learn_preferences hist st.driver_preferences
  { car_state := car, action_history := hist, driver_preferences := prefs }

theorem update_climate_increase (s : CarState) (v : Option Int) :
    update_car_state s "climate_increase" v
      = { s with temperature := min (s.temperature + 1) 30 } := rfl

theorem update_climate_decrease (s : CarState) (v : Option Int) :
    update_car_state s "climate_decrease" v
      = { s with temperature := max (s.temperature - 1) 16 } := rfl

theorem update_volume_up (s : CarState) (v : Option Int) :
    update_car_state s "infotainment_volume_up" v
      = { s with volume := min (s.volume + 10) 100 } := rfl

theorem update_volume_down (s : CarState) (v : Option Int) :
    update_car_state s "infotainment_volume_down" v
      = { s with volume := max (s.volume - 10) 0 } := rfl

theorem update_unknown (s : CarState) (a : String) (v : Option Int)
    (h : a ∉ knownActions) : update_car_state s a v = s := by
  simp only [knownActions, List.mem_cons, List.not_mem_nil, or_false,
    not_or] at h
  obtain ⟨h1, h2, h3, h4, h5, h6, h7, h8, h9, h10, h11, h12, h13, h14, h15,
    h16, h17⟩ := h
  simp [update_car_state, h1, h2, h3, h4, h5, h6, h7, h8, h9, h10, h11, h12,
    h13, h14, h15, h16, h17]

theorem update_brightness_bounds (s : CarState) (a : String) (v : Option Int)
    (h0 : 0 ≤ s.brightness) (h1 : s.brightness ≤ 100) :
    0 ≤ (update_car_state s a v).brightness ∧
      (update_car_state s a v).brightness ≤ 100 := by
  by_cases hk : a ∈ knownActions
  · simp only [knownActions, List.mem_cons, List.not_mem_nil, or_false] at hk
    rcases hk with h|h|h|h|h|h|h|h|h|h|h|h|h|h|h|h|h <;> subst h <;>
      simp [update_car_state] <;> try split
    all_goals try simp
    all_goals omega
  · rw [update_unknown s a v hk]
    exact ⟨h0, h1⟩

theorem applyActions_brightness_bounds (es : List (String × Option Int)) :
    0 ≤ (applyActions initialCarState es).brightness ∧
      (applyActions initialCarState es).brightness ≤ 100 := by
  suffices h : ∀ s : CarState, 0 ≤ s.brightness → s.brightness ≤ 100 →
      0 ≤ (applyActions s es).brightness ∧ (applyActions s es).brightness ≤ 100 by
    exact h initialCarState (by decide) (by decide)
  induction es with
  | nil => intro s h0 h1; exact ⟨h0, h1⟩
  | cons e es ih =>
      intro s h0 h1
      have hb := update_brightness_bounds s e.1 e.2 h0 h1
      exact ih (update_car_state s e.1 e.2) hb.1 hb.2

/-- C1: the claim as stated is false.  The state reached from the defaults by
`climate_set_temperature 100` followed by `climate_decrease` has temperature
99, outside [16,30], because a direct set is unclamped and a single clamped
decrement only enforces the lower bound. -/
theorem clamp_invariant_counterexample :
    (applyActions initialCarState
      [("climate_set_temperature", some 100), ("climate_decrease", none)]
      ).temperature = 99 ∧
    ¬((applyActions initialCarState
      [("climate_set_temperature", some 100), ("climate_decrease", none)]
      ).temperature ≤ 30) := by
  decide

/-- C1 (amended): in every state reachable from the defaults, brightness lies
in [0,100] (so in particular after lights_dim / lights_brighten).  When the
temperature already lies in [16,30], climate_increase and climate_decrease
keep it there; otherwise a single increase only guarantees temperature ≤ 30
and a single decrease only 16 ≤ temperature.  The same holds for volume in
[0,100] under infotainment_volume_up / infotainment_volume_down. -/
theorem clamp_bounds_amended :
    (∀ es : List (String × Option Int),
      0 ≤ (applyActions initialCarState es).brightness ∧
        (applyActions initialCarState es).brightness ≤ 100) ∧
    (∀ s : CarState, 16 ≤ s.temperature → s.temperature ≤ 30 →
      (16 ≤ (update_car_state s "climate_increase" none).temperature ∧
        (update_car_state s "climate_increase" none).temperature ≤ 30) ∧
      (16 ≤ (update_car_state s "climate_decrease" none).temperature ∧
        (update_car_state s "climate_decrease" none).temperature ≤ 30)) ∧
    (∀ s : CarState,
      (update_car_state s "climate_increase" none).temperature ≤ 30 ∧
        16 ≤ (update_car_state s "climate_decrease" none).temperature) ∧
    (∀ s : CarState, 0 ≤ s.volume → s.volume ≤ 100 →
      (0 ≤ (update_car_state s "infotainment_volume_up" none).volume ∧
        (update_car_state s "infotainment_volume_up" none).volume ≤ 100) ∧
      (0 ≤ (update_car_state s "infotainment_volume_down" none).volume ∧
        (update_car_state s "infotainment_volume_down" none).volume ≤ 100)) ∧
    (∀ s : CarState,
      (update_car_state s "infotainment_volume_up" none).volume ≤ 100 ∧
        0 ≤ (update_car_state s "infotainment_volume_down" none).volume) := by
  refine ⟨applyActions_brightness_bounds, ?_, ?_, ?_, ?_⟩ <;>
    intro s <;>
    simp only [update_climate_increase, update_climate_decrease,
      update_volume_up, update_volume_down] <;>
    intros <;> refine ⟨?_, ?_⟩ <;> try refine ⟨?_, ?_⟩
  all_goals dsimp only
  all_goals omega

/-- C1 (amended) witness at concrete inputs: one lights_dim from the defaults
leaves brightness at 60 within [0,100], and increase/decrease from the
default temperature 22 stay within [16,30]. -/
theorem clamp_bounds_amended_witness :
    (0 ≤ (applyActions initialCarState [("lights_dim", none)]).brightness ∧
      (applyActions initialCarState [("lights_dim", none)]).brightness ≤ 100) ∧
    (16 ≤ (update_car_state initialCarState "climate_increase" none).temperature ∧
      (update_car_state initialCarState "climate_increase" none).temperature ≤ 30) := by
  refine ⟨clamp_bounds_amended.1 [("lights_dim", none)], ?_⟩
  exact (clamp_bounds_amended.2.1 initialCarState (by decide) (by decide)).1

/-- C4: the claim as stated is false.  The value 0 is non-null, yet the
source guard `action == 'infotainment_set_volume' and value` is false for 0
(Python numeric truthiness), so the direct set with value 0 is a no-op: the
volume stays at its default 50 instead of being set to 0. -/
theorem direct_set_zero_counterexample :
    (update_car_state initialCarState "infotainment_set_volume" (some 0)
      ).volume = 50 ∧ (50 : Int) ≠ 0 := by
  decide

/-- C4 (amended): for every non-null, nonzero numeric value v, the direct set
actions climate_set_temperature / infotainment_set_volume / seats_adjust
store exactly v, with no clamping; a null or zero value leaves the
corresponding field unchanged. -/
theorem direct_set_unclamped (s : CarState) (v : Int) (h : v ≠ 0) :
    (update_car_state s "climate_set_temperature" (some v)).temperature = v ∧
    (update_car_state s "infotainment_set_volume" (some v)).volume = v ∧
    (update_car_state s "seats_adjust" (some v)).seat_position = v ∧
    (update_car_state s "climate_set_temperature" none).temperature
      = s.temperature ∧
    (update_car_state s "climate_set_temperature" (some 0)).temperature
      = s.temperature ∧
    (update_car_state s "infotainment_set_volume" none).volume = s.volume ∧
    (update_car_state s "infotainment_set_volume" (some 0)).volume
      = s.volume ∧
    (update_car_state s "seats_adjust" none).seat_position
      = s.seat_position ∧
    (update_car_state s "seats_adjust" (some 0)).seat_position
      = s.seat_position := by
  refine ⟨?_, ?_, ?_, ?_, ?_, ?_, ?_, ?_, ?_⟩ <;>
    simp [update_car_state, truthy, h]

/-- C4 (amended) witness: setting temperature to the nonzero value 100 from
the defaults stores exactly 100 — far outside [16,30], so direct sets are
indeed unclamped. -/
theorem direct_set_unclamped_witness :
    (100 : Int) ≠ 0 ∧
    (update_car_state initialCarState "climate_set_temperature" (some 100)
      ).temperature = 100 :=
  ⟨by decide, (direct_set_unclamped initialCarState 100 (by decide)).1⟩

/-- Counts how many of the 8 car-state fields differ between two states. -/
def fieldsChanged (s t : CarState) : Nat :=
  (if s.climate_on = t.climate_on then 0 else 1) +
  (if s.temperature = t.temperature then 0 else 1) +
  (if s.infotainment_on = t.infotainment_on then 0 else 1) +
  (if s.volume = t.volume then 0 else 1) +
  (if s.lights_on = t.lights_on then 0 else 1) +
  (if s.brightness = t.brightness then 0 else 1) +
  (if s.seats_heated = t.seats_heated then 0 else 1) +
  (if s.seat_position = t.seat_position then 0 else 1)

/-- C10: a single `update_car_state` call modifies at most one of the eight
car-state fields; every other field keeps its prior value. -/
theorem update_single_field_frame (s : CarState) (a : String)
    (v : Option Int) : fieldsChanged s (update_car_state s a v) ≤ 1 := by
  by_cases hk : a ∈ knownActions
  · simp only [knownActions, List.mem_cons, List.not_mem_nil, or_false] at hk
    rcases hk with h|h|h|h|h|h|h|h|h|h|h|h|h|h|h|h|h <;> subst h <;>
      simp [update_car_state, fieldsChanged] <;> try split
    all_goals try simp [fieldsChanged]
    all_goals try split
    all_goals try simp
  · rw [update_unknown s a v hk]
    simp [fieldsChanged]

/-- The pure session fields at process start. -/
def initialAIState : AIState :=
  { car_state := initialCarState
    action_history := []
    driver_preferences := initialDriverPreferences }

/-- C8: processing an event whose action name is outside the 17 known ones
leaves every car-state field unchanged while the event is still appended to
the action history. -/
theorem unknown_action_noop (st : AIState) (e : ActionEvent)
    (h : e.action ∉ knownActions) :
    (handle_vehicle_action st e).car_state = st.car_state ∧
    (handle_vehicle_action st e).action_history
      = histAppend st.action_history e := by
  constructor
  · show update_car_state st.car_state e.action e.value = st.car_state
    exact update_unknown st.car_state e.action e.value h
  · rfl

/-- C8 witness at the unknown action name "open_sunroof" from the initial
session state. -/
theorem unknown_action_noop_witness :
    (handle_vehicle_action initialAIState
      { action := "open_sunroof", value := none }).car_state
      = initialCarState ∧
    (handle_vehicle_action initialAIState
      { action := "open_sunroof", value := none }).action_history
      = histAppend [] { action := "open_sunroof", value := none } := by
  have h := unknown_action_noop initialAIState
    { action := "open_sunroof", value := none } (by decide)
  exact h

theorem histAppend_length_le (h : List ActionEvent) (e : ActionEvent) :
    (histAppend h e).length ≤ 50 := by
  unfold histAppend
  dsimp only
  split
  · assumption
  · simp
    omega

/-- C9: after every sequence of appends starting from the empty history, the
history holds at most 50 entries, and an append at capacity drops exactly the
single oldest entry, keeping the remaining entries in FIFO order followed by
the new event. -/
theorem history_capacity_fifo :
    (∀ es : List ActionEvent, (es.foldl histAppend []).length ≤ 50) ∧
    (∀ (h : List ActionEvent) (e : ActionEvent), h.length = 50 →
      histAppend h e = h.drop 1 ++ [e]) := by
  constructor
  · intro es
    suffices hgen : ∀ (h : List ActionEvent), h.length ≤ 50 →
        (es.foldl histAppend h).length ≤ 50 by
      exact hgen [] (by simp)
    induction es with
    | nil => intro h hh; simpa using hh
    | cons e es ih =>
        intro h hh
        exact ih (histAppend h e) (histAppend_length_le h e)
  · intro h e hlen
    unfold histAppend
    dsimp only
    rw [if_neg (by simp [hlen])]
    have h1 : (h ++ [e]).length - 50 = 1 := by simp [hlen]
    rw [h1, List.drop_append_of_le_length (by omega)]

/-- C9 witness: the empty append sequence keeps the length within 50, and an
append onto a concrete 50-element history evicts exactly its head. -/
theorem history_capacity_fifo_witness :
    ((([] : List ActionEvent).foldl histAppend []).length ≤ 50) ∧
    histAppend (List.replicate 50 { action := "a", value := none })
        { action := "b", value := none }
      = (List.replicate 50
          ({ action := "a", value := none } : ActionEvent)).drop 1
          ++ [{ action := "b", value := none }] :=
  ⟨history_capacity_fifo.1 [],
    history_capacity_fifo.2 _ _ (by simp)⟩

theorem runReminders_sent (n : Nat) :
    runReminders true n = (true, []) := by
  induction n with
  | zero => rfl
  | succ m ih => simp [runReminders, send_break_reminder, ih]

/-- C7: starting with the guard flag unset, any positive number of reminder
expiry signals publishes in total exactly one recommendation, with action
take_break, and leaves the guard set; every invocation after the first
publishes nothing. -/
theorem break_reminder_once (n : Nat) (h : 1 ≤ n) :
    runReminders false n
      = (true, [{ action := "take_break", value := none }]) := by
  cases n with
  | zero => exact absurd h (by decide)
  | succ m =>
      simp [runReminders, send_break_reminder, runReminders_sent]

/-- C7 witness: three expiry signals in a row publish exactly the single
take_break recommendation. -/
theorem break_reminder_once_witness :
    runReminders false 3
      = (true, [{ action := "take_break", value := none }]) :=
  break_reminder_once 3 (by decide)

theorem learnTemperature_frame (history : List ActionEvent)
    (p : DriverPreferences) :
    (learnTemperature history p).preferred_volume = p.preferred_volume ∧
    (learnTemperature history p).preferred_seat_position
      = p.preferred_seat_position ∧
    (learnTemperature history p).likes_music = p.likes_music ∧
    (learnTemperature history p).likes_warm_seats = p.likes_warm_seats := by
  unfold learnTemperature
  dsimp only
  split <;> exact ⟨rfl, rfl, rfl, rfl⟩

theorem learnVolume_frame (history : List ActionEvent)
    (p : DriverPreferences) :
    (learnVolume history p).preferred_temperature
      = p.preferred_temperature ∧
    (learnVolume history p).preferred_seat_position
      = p.preferred_seat_position ∧
    (learnVolume history p).likes_music = p.likes_music ∧
    (learnVolume history p).likes_warm_seats = p.likes_warm_seats := by
  unfold learnVolume
  dsimp only
  split <;> exact ⟨rfl, rfl, rfl, rfl⟩

theorem learnSeatPosition_frame (history : List ActionEvent)
    (p : DriverPreferences) :
    (learnSeatPosition history p).preferred_temperature
      = p.preferred_temperature ∧
    (learnSeatPosition history p).preferred_volume = p.preferred_volume ∧
    (learnSeatPosition history p).likes_music = p.likes_music ∧
    (learnSeatPosition history p).likes_warm_seats
      = p.likes_warm_seats := by
  unfold learnSeatPosition
  dsimp only
  split <;> exact ⟨rfl, rfl, rfl, rfl⟩

theorem learnFlags_frame (actions : List String) (p : DriverPreferences) :
    (learnFlags actions p).preferred_temperature
      = p.preferred_temperature ∧
    (learnFlags actions p).preferred_volume = p.preferred_volume ∧
    (learnFlags actions p).preferred_seat_position
      = p.preferred_seat_position := by
  unfold learnFlags
  dsimp only
  split <;> split <;> exact ⟨rfl, rfl, rfl⟩

theorem learnFlags_monotone (actions : List String)
    (p : DriverPreferences) :
    (p.likes_music = true → (learnFlags actions p).likes_music = true) ∧
    (p.likes_warm_seats = true →
      (learnFlags actions p).likes_warm_seats = true) := by
  unfold learnFlags
  dsimp only
  constructor <;> intro h <;> split <;> split <;> simp_all

theorem learnCommon_frame (actions : List String) (p : DriverPreferences) :
    (learnCommon actions p).preferred_temperature
      = p.preferred_temperature ∧
    (learnCommon actions p).preferred_volume = p.preferred_volume ∧
    (learnCommon actions p).preferred_seat_position
      = p.preferred_seat_position ∧
    (learnCommon actions p).likes_music = p.likes_music ∧
    (learnCommon actions p).likes_warm_seats = p.likes_warm_seats :=
  ⟨rfl, rfl, rfl, rfl, rfl⟩

theorem learnTemperature_sets (history : List ActionEvent)
    (p : DriverPreferences) :
    (history.filter (isSetAction "climate_set_temperature") ≠ [] →
      (learnTemperature history p).preferred_temperature
        = meanFloor ((history.filter
            (isSetAction "climate_set_temperature")).filterMap
            (fun a => a.value))) ∧
    (history.filter (isSetAction "climate_set_temperature") = [] →
      (learnTemperature history p).preferred_temperature
        = p.preferred_temperature) := by
  unfold learnTemperature
  dsimp only
  split
  · next h => exact ⟨fun _ => rfl, fun hc => absurd hc h⟩
  · next h => exact ⟨fun hc => absurd hc h, fun _ => rfl⟩

theorem learnVolume_sets (history : List ActionEvent)
    (p : DriverPreferences) :
    (history.filter (isSetAction "infotainment_set_volume") ≠ [] →
      (learnVolume history p).preferred_volume
        = meanFloor ((history.filter
            (isSetAction "infotainment_set_volume")).filterMap
            (fun a => a.value))) ∧
    (history.filter (isSetAction "infotainment_set_volume") = [] →
      (learnVolume history p).preferred_volume = p.preferred_volume) := by
  unfold learnVolume
  dsimp only
  split
  · next h => exact ⟨fun _ => rfl, fun hc => absurd hc h⟩
  · next h => exact ⟨fun hc => absurd hc h, fun _ => rfl⟩

theorem learnSeatPosition_sets (history : List ActionEvent)
    (p : DriverPreferences) :
    (history.filter (isSetAction "seats_adjust") ≠ [] →
      (learnSeatPosition history p).preferred_seat_position
        = meanFloor ((history.filter
            (isSetAction "seats_adjust")).filterMap (fun a => a.value))) ∧
    (history.filter (isSetAction "seats_adjust") = [] →
      (learnSeatPosition history p).preferred_seat_position
        = p.preferred_seat_position) := by
  unfold learnSeatPosition
  dsimp only
  split
  · next h => exact ⟨fun _ => rfl, fun hc => absurd hc h⟩
  · next h => exact ⟨fun hc => absurd hc h, fun _ => rfl⟩

theorem learn_preferences_eq (history : List ActionEvent)
    (p : DriverPreferences) (h3 : ¬history.length < 3) :
    learn_preferences history p
      = learnCommon (history.map (fun a => a.action))
          (learnFlags (history.map (fun a => a.action))
            (learnSeatPosition history
              (learnVolume history (learnTemperature history p)))) := by
  unfold learn_preferences
  rw [if_neg h3]

/-- C6: the boolean preference flags are never demoted by `learn_preferences`:
if likes_music is already true, it stays true after any recompute, including
one whose history window no longer contains infotainment_play; likewise for
likes_warm_seats with respect to seats_heat_on. -/
theorem likes_flags_sticky (history : List ActionEvent)
    (p : DriverPreferences) :
    (p.likes_music = true →
      (learn_preferences history p).likes_music = true) ∧
    (p.likes_warm_seats = true →
      (learn_preferences history p).likes_warm_seats = true) := by
  by_cases h3 : history.length < 3
  · unfold learn_preferences
    rw [if_pos h3]
    exact ⟨fun h => h, fun h => h⟩
  · rw [learn_preferences_eq history p h3]
    constructor <;> intro h
    · rw [(learnCommon_frame _ _).2.2.2.1]
      refine (learnFlags_monotone _ _).1 ?_
      rw [(learnSeatPosition_frame _ _).2.2.1, (learnVolume_frame _ _).2.2.1,
        (learnTemperature_frame _ _).2.2.1]
      exact h
    · rw [(learnCommon_frame _ _).2.2.2.2]
      refine (learnFlags_monotone _ _).2 ?_
      rw [(learnSeatPosition_frame _ _).2.2.2, (learnVolume_frame _ _).2.2.2,
        (learnTemperature_frame _ _).2.2.2]
      exact h

/-- C6 witness: a window without infotainment_play (three unrelated events)
keeps an already-true likes_music flag true. -/
theorem likes_flags_sticky_witness :
    ({ initialDriverPreferences with likes_music := true }
        : DriverPreferences).likes_music = true ∧
    (learn_preferences
      [{ action := "lights_dim", value := none },
       { action := "lights_dim", value := none },
       { action := "lights_dim", value := none }]
      { initialDriverPreferences with likes_music := true }).likes_music
      = true :=
  ⟨by decide,
    (likes_flags_sticky
      [{ action := "lights_dim", value := none },
       { action := "lights_dim", value := none },
       { action := "lights_dim", value := none }]
      { initialDriverPreferences with likes_music := true }).1 (by decide)⟩

/-- Restates the C2 claim wording, for the counterexample below: the values
of history entries of one action kind whose value is non-null (the claim
requires only non-null; the source additionally requires nonzero). -/
def claimEntriesNonNull (history : List ActionEvent) (name : String) :
    List Int :=
  (history.filter (fun a => a.action == name && a.value.isSome)).filterMap
    (fun a => a.value)

/-- C2: the claim as stated is false on two counts.  First, an
infotainment_set_volume entry with the non-null value 0 exists in a 3-entry
history, so the claim requires preferred_volume to become the mean 0, yet
the source's truthiness filter skips value 0 and keeps the default 50.
Second, with non-null values -3 and -4, the integer-truncated mean of -7/2
is -3, yet the source's floor division gives -4. -/
theorem learn_mean_counterexample :
    (claimEntriesNonNull
        [{ action := "infotainment_set_volume", value := some 0 },
         { action := "lights_dim", value := none },
         { action := "lights_dim", value := none }]
        "infotainment_set_volume" = [0] ∧
     Int.tdiv 0 1 = 0 ∧
     (learn_preferences
        [{ action := "infotainment_set_volume", value := some 0 },
         { action := "lights_dim", value := none },
         { action := "lights_dim", value := none }]
        initialDriverPreferences).preferred_volume = 50 ∧
     (50 : Int) ≠ 0) ∧
    (claimEntriesNonNull
        [{ action := "climate_set_temperature", value := some (-3) },
         { action := "climate_set_temperature", value := some (-4) },
         { action := "lights_dim", value := none }]
        "climate_set_temperature" = [-3, -4] ∧
     Int.tdiv (-3 + -4) 2 = -3 ∧
     (learn_preferences
        [{ action := "climate_set_temperature", value := some (-3) },
         { action := "climate_set_temperature", value := some (-4) },
         { action := "lights_dim", value := none }]
        initialDriverPreferences).preferred_temperature = -4 ∧
     ((-4 : Int) ≠ -3)) := by
  decide

/-- C2 (amended): learn_preferences leaves every preference field unchanged
when the history has fewer than 3 entries; with at least 3 entries, for each
of the three set-action kinds, if at least one entry of that kind with a
truthy value (non-null and nonzero) exists, the corresponding preferred
field becomes the floor (rounded toward minus infinity) of the arithmetic
mean of those truthy values — in particular values 20, 22, 24 give 22 — and
if no such entry exists the field retains its prior value. -/
theorem learn_preferences_means (history : List ActionEvent)
    (p : DriverPreferences) :
    (history.length < 3 → learn_preferences history p = p) ∧
    (3 ≤ history.length →
      (history.filter (isSetAction "climate_set_temperature") ≠ [] →
        (learn_preferences history p).preferred_temperature
          = meanFloor ((history.filter
              (isSetAction "climate_set_temperature")).filterMap
              (fun a => a.value))) ∧
      (history.filter (isSetAction "climate_set_temperature") = [] →
        (learn_preferences history p).preferred_temperature
          = p.preferred_temperature) ∧
      (history.filter (isSetAction "infotainment_set_volume") ≠ [] →
        (learn_preferences history p).preferred_volume
          = meanFloor ((history.filter
              (isSetAction "infotainment_set_volume")).filterMap
              (fun a => a.value))) ∧
      (history.filter (isSetAction "infotainment_set_volume") = [] →
        (learn_preferences history p).preferred_volume
          = p.preferred_volume) ∧
      (history.filter (isSetAction "seats_adjust") ≠ [] →
        (learn_preferences history p).preferred_seat_position
          = meanFloor ((history.filter
              (isSetAction "seats_adjust")).filterMap (fun a => a.value))) ∧
      (history.filter (isSetAction "seats_adjust") = [] →
        (learn_preferences history p).preferred_seat_position
          = p.preferred_seat_position)) ∧
    (∀ q : DriverPreferences,
      (learn_preferences
        [{ action := "climate_set_temperature", value := some 20 },
         { action := "climate_set_temperature", value := some 22 },
         { action := "climate_set_temperature", value := some 24 }]
        q).preferred_temperature = 22) := by
  refine ⟨?_, ?_, ?_⟩
  · intro h
    unfold learn_preferences
    rw [if_pos h]
  · intro h3
    have hn : ¬history.length < 3 := by omega
    refine ⟨?_, ?_, ?_, ?_, ?_, ?_⟩ <;> intro hcond <;>
      rw [learn_preferences_eq history p hn]
    · rw [(learnCommon_frame _ _).1, (learnFlags_frame _ _).1,
        (learnSeatPosition_frame _ _).1, (learnVolume_frame _ _).1]
      exact (learnTemperature_sets history p).1 hcond
    · rw [(learnCommon_frame _ _).1, (learnFlags_frame _ _).1,
        (learnSeatPosition_frame _ _).1, (learnVolume_frame _ _).1]
      exact (learnTemperature_sets history p).2 hcond
    · rw [(learnCommon_frame _ _).2.1, (learnFlags_frame _ _).2.1,
        (learnSeatPosition_frame _ _).2.1]
      exact (learnVolume_sets history _).1 hcond
    · rw [(learnCommon_frame _ _).2.1, (learnFlags_frame _ _).2.1,
        (learnSeatPosition_frame _ _).2.1,
        (learnVolume_sets history _).2 hcond,
        (learnTemperature_frame _ _).1]
    · rw [(learnCommon_frame _ _).2.2.1, (learnFlags_frame _ _).2.2]
      exact (learnSeatPosition_sets _ _).1 hcond
    · rw [(learnCommon_frame _ _).2.2.1, (learnFlags_frame _ _).2.2,
        (learnSeatPosition_sets _ _).2 hcond,
        (learnVolume_frame _ _).2.1, (learnTemperature_frame _ _).2.1]
  · intro q
    rfl

/-- C2 (amended) witness: the empty history leaves the default preferences
unchanged, and the concrete 20/22/24 scenario yields 22. -/
theorem learn_preferences_means_witness :
    learn_preferences [] initialDriverPreferences
      = initialDriverPreferences ∧
    (learn_preferences
      [{ action := "climate_set_temperature", value := some 20 },
       { action := "climate_set_temperature", value := some 22 },
       { action := "climate_set_temperature", value := some 24 }]
      initialDriverPreferences).preferred_temperature = 22 :=
  ⟨(learn_preferences_means [] initialDriverPreferences).1 (by decide),
   (learn_preferences_means [] initialDriverPreferences).2.2
     initialDriverPreferences⟩

/-- C3: generate_recommendations returns at most two recommendations,
namely the 2-prefix of the eligible-rule list built in fixed declaration
order (climate-on, temperature-match, music, volume-match, lighting,
seat-warmth, seat-position); rules eligible after two have been collected
are dropped, and with zero eligible rules it yields nothing. -/
theorem generate_at_most_two (s : CarState) (p : DriverPreferences)
    (hist : List ActionEvent) (hour : Nat) :
    (generate_recommendations s p hist hour = none ↔
      eligibleRecs s p hist hour = []) ∧
    (∀ l, generate_recommendations s p hist hour = some l →
      l.length ≤ 2 ∧ l = (eligibleRecs s p hist hour).take 2 ∧
        l <+: eligibleRecs s p hist hour) := by
  constructor
  · unfold generate_recommendations
    dsimp only
    split
    · next h => simp [h]
    · next h => simp [h]
  · intro l hl
    unfold generate_recommendations at hl
    dsimp only at hl
    split at hl
    · cases hl
    · cases hl
      refine ⟨?_, rfl, List.take_prefix 2 _⟩
      simp [List.length_take]

/-- C3 witness: from the default state with empty history at hour 12, only
the climate-on rule is eligible and the generator returns exactly it. -/
theorem generate_at_most_two_witness :
    ([({ action := "climate_turn_on", value := none } : Recommendation)]
        = (eligibleRecs initialCarState initialDriverPreferences [] 12
            ).take 2) ∧
    ([({ action := "climate_turn_on", value := none } : Recommendation)
        ].length ≤ 2) :=
  have h := (generate_at_most_two initialCarState initialDriverPreferences
      [] 12).2
    [{ action := "climate_turn_on", value := none }] (by decide)
  ⟨h.2.1, h.1⟩

/-- C5: no recommendation returned by generate_recommendations has an action
name among the session's last 3 recorded action names, the suppression set
being the last 3 entries of the last-5-action recent window. -/
theorem no_recent_action_recommended (s : CarState) (p : DriverPreferences)
    (hist : List ActionEvent) (hour : Nat) (l : List Recommendation)
    (r : Recommendation)
    (hl : generate_recommendations s p hist hour = some l) (hr : r ∈ l) :
    r.action ∉ lastN 3 (lastN 5 (hist.map (fun a => a.action))) := by
  unfold generate_recommendations at hl
  dsimp only at hl
  split at hl
  · cases hl
  · cases hl
    have hr2 : r ∈ eligibleRecs s p hist hour := List.take_subset _ _ hr
    unfold eligibleRecs at hr2
    dsimp only at hr2
    simp only [List.mem_append] at hr2
    rcases hr2 with ((((((h|h)|h)|h)|h)|h)|h)
    all_goals repeat' split at h
    all_goals simp_all

/-- C5 witness: in the default-state scenario the returned climate-on
recommendation is absent from the (empty) suppression window. -/
theorem no_recent_action_recommended_witness :
    ("climate_turn_on" : String)
      ∉ lastN 3 (lastN 5 (([] : List ActionEvent).map
          (fun a => a.action))) := by
  have h := no_recent_action_recommended initialCarState
    initialDriverPreferences [] 12
    [{ action := "climate_turn_on", value := none }]
    { action := "climate_turn_on", value := none } (by decide) (by decide)
  exact h
